import Mathlib

/-!
# Verification of the Nuitka GUI packer (`main.py`)

Shallow embedding of the logic of `main.py`, a PyQt front end that builds a
Nuitka command line from form widgets, runs it in a worker thread, and
saves/loads the form state as JSON.

The embedding models:

* `cmdParts` / `buildCommand` — `MainInterface.buildCommand`;
* `startPackage`              — `MainInterface.startPackage`;
* `getConfig` / `setConfig`   — the JSON config record (with a small JSON value
  type `JVal`) produced and consumed by `MainInterface`;
* `getAssets` / `setAssets` / `addAsset` — the asset table of
  `AssetsInterface`;
* `finishEmit`, `progressOfLine`, `PackageThread.stop` — the worker thread
  `PackageThread`.

Python string built-ins used by the source (`str.strip`, `str.split`,
`str.join`, `int(...)`) are modelled by `pyStrip`, `String.splitOn`,
`pyJoin`, `pyInt`; whitespace is modelled as ASCII whitespace.
Filesystem probes (`os.path.isfile`, `os.path.basename`) are modelled as
explicit parameters, since they read the environment, not program state.
-/

/-! ## Python string helpers -/

/-- Python `str.strip()` (restricted to ASCII whitespace): drop whitespace
from both ends. -/
def pyStrip (s : String) : String :=
  ⟨((s.data.dropWhile Char.isWhitespace).reverse.dropWhile Char.isWhitespace).reverse⟩

/-- Python `str.split(sep)` for a one-character separator `c` (the only form
the source uses: `'\n'`, `','`, `'%'`): split at every occurrence, keeping
empty pieces. -/
def pySplitChar (c : Char) (s : String) : List String :=
  (s.data.splitOn c).map String.mk

/-- Python `c in s` for a one-character needle. -/
def pyContainsChar (c : Char) (s : String) : Bool :=
  s.data.any (fun x => x = c)

/-- Python `s.replace(' ', '')`: remove every space. -/
def pyRemoveSpaces (s : String) : String :=
  ⟨s.data.filter (fun x => x ≠ ' ')⟩

/-- Python `sep.join(l)`: `""` on `[]`, otherwise the parts interleaved with
`sep`. -/
def pyJoin (sep : String) : List String → String
  | [] => ""
  | [x] => x
  | x :: y :: xs => x ++ sep ++ pyJoin sep (y :: xs)

/-- Python `str.split()` with no argument: split on whitespace, dropping
empty pieces (so whitespace runs and ends contribute nothing). -/
def pySplitWs (s : String) : List String :=
  ((s.data.splitOnP Char.isWhitespace).map String.mk).filter (fun t => t ≠ "")

/-- Digit-run parser used by `pyInt`: accumulates decimal digits, allowing a
single underscore between two digits, as Python's `int(str)` does. -/
def pyDigits (acc : Nat) : List Char → Option Nat
  | [] => some acc
  | '_' :: c :: cs =>
      if c.isDigit then pyDigits (acc * 10 + (c.toNat - 48)) cs else none
  | ['_'] => none
  | c :: cs =>
      if c.isDigit then pyDigits (acc * 10 + (c.toNat - 48)) cs else none

/-- Python `int(s)` on a string: optional surrounding whitespace, optional
sign, then a nonempty digit run (single underscores allowed between digits);
`none` models `ValueError`. ASCII digits only. -/
def pyInt (s : String) : Option Int :=
  match (pyStrip s).data with
  | [] => none
  | '+' :: c :: cs =>
      if c.isDigit then (pyDigits (c.toNat - 48) cs).map Int.ofNat else none
  | '-' :: c :: cs =>
      if c.isDigit then (pyDigits (c.toNat - 48) cs).map (fun n => -(Int.ofNat n)) else none
  | c :: cs =>
      if c.isDigit then (pyDigits (c.toNat - 48) cs).map Int.ofNat else none

/-! ## Form state

One field per widget read or written by `buildCommand`, `getConfig`,
`setConfig`.  Radio buttons `standaloneRadio`/`onefileRadio` form one group,
modelled by the single Boolean `standalone`. -/

/-- The eight fixed plugin checkboxes of `PluginsInterface.plugins`
(dict keys in insertion order: pyqt5, pyside2, pyside6, numpy, torch,
tensorflow, matplotlib, tk-inter). -/
structure PluginState where
  pyqt5 : Bool
  pyside2 : Bool
  pyside6 : Bool
  numpy : Bool
  torch : Bool
  tensorflow : Bool
  matplotlib : Bool
  tkInter : Bool
deriving DecidableEq, Repr

/-- The plugin dict as the ordered association list `name ↦ checked`. -/
def pluginList (p : PluginState) : List (String × Bool) :=
  [("pyqt5", p.pyqt5), ("pyside2", p.pyside2), ("pyside6", p.pyside6),
   ("numpy", p.numpy), ("torch", p.torch), ("tensorflow", p.tensorflow),
   ("matplotlib", p.matplotlib), ("tk-inter", p.tkInter)]

/-- One row of the `AssetsInterface` table: include checkbox, source path
(column 1), target path (column 2), and the type cell text (column 3, the
literal `"文件"` or `"文件夹"`). -/
structure AssetRow where
  enabled : Bool
  source : String
  target : String
  typeText : String
deriving DecidableEq, Repr

/-- One entry of `AssetsInterface.getAssets()`: the row with the type cell
translated to `"file"`/`"folder"`. -/
structure AssetCfg where
  enabled : Bool
  source : String
  target : String
  type : String
deriving DecidableEq, Repr

/-- The form state: current values of all configuration widgets used by
`buildCommand`, `getConfig` and `setConfig`. -/
structure FormState where
  pythonEdit : String
  fileEdit : String
  standalone : Bool
  outputDir : String
  outputName : String
  outputIcon : String
  compiler : String
  gccPath : String
  autoDownload : Bool
  console : Bool
  progress : Bool
  memory : Bool
  removeOutput : Bool
  ccache : Bool
  lowMemory : Bool
  lto : Bool
  plugins : PluginState
  customPlugins : String
  followImports : Bool
  includeMods : String
  excludeMods : String
  dataText : String
  assetRows : List AssetRow
  winCompany : String
  winProduct : String
  winVersion : String
  winDesc : String
  uac : Bool
  extraText : String
deriving DecidableEq, Repr

/-! ## Asset table operations (`AssetsInterface`) -/

/-- One row of `AssetsInterface.getAssets`: the row with the type cell text
`"文件"` mapped to `"file"` and anything else to `"folder"`. -/
def getAssetCfg (r : AssetRow) : AssetCfg :=
  { enabled := r.enabled, source := r.source, target := r.target,
    type := if r.typeText = "文件" then "file" else "folder" }

/-- `AssetsInterface.getAssets`: every table row as a config entry. -/
def getAssets (rows : List AssetRow) : List AssetCfg :=
  rows.map getAssetCfg

/-- `AssetsInterface.addAsset(path, target_path)`: refuse empty paths, refuse
paths already present in the source column, otherwise append a row whose
target defaults to `basename path` and whose type cell reflects
`os.path.isfile path`.  The filesystem probes are the explicit arguments
`isFile` and `basename`. -/
def addAsset (isFile : Bool) (basename : String) (rows : List AssetRow)
    (path : String) (targetPath : Option String) : List AssetRow :=
  if path = "" then rows
  else if rows.any (fun r => r.source = path) then rows
  else rows ++ [{ enabled := true, source := path,
                  target := targetPath.getD basename,
                  typeText := if isFile then "文件" else "文件夹" }]

/-- One `addAsset` call record: the filesystem answers and the arguments. -/
structure AddCall where
  isFile : Bool
  basename : String
  path : String
  targetPath : Option String
deriving Repr

/-- A sequence of `addAsset` calls applied to a table. -/
def addAssetFold (rows : List AssetRow) (calls : List AddCall) : List AssetRow :=
  calls.foldl (fun t c => addAsset c.isFile c.basename t c.path c.targetPath) rows

/-! ## Command construction (`MainInterface.buildCommand`) -/

/-- A `--name=value` command part, as produced by the f-strings of
`buildCommand`. -/
def optPart (name val : String) : String := "--" ++ name ++ "=" ++ val

/-- The interpreter path: `pythonEdit.text() or 'python'`. -/
def pythonPath (st : FormState) : String :=
  if st.pythonEdit = "" then "python" else st.pythonEdit

/-- Names of the checked fixed plugin checkboxes, in dict order. -/
def enabledPlugins (st : FormState) : List String :=
  ((pluginList st.plugins).filter (fun p => p.2)).map (fun p => p.1)

/-- The custom plugin names: nonblank lines of the stripped custom-plugin
text, each stripped. -/
def customPluginList (st : FormState) : List String :=
  ((pySplitChar '\n' (pyStrip st.customPlugins)).filter (fun p => pyStrip p ≠ "")).map pyStrip

/-- The data entries: nonblank lines of the stripped data text, each
stripped. -/
def dataLines (st : FormState) : List String :=
  ((pySplitChar '\n' (pyStrip st.dataText)).filter (fun l => pyStrip l ≠ "")).map pyStrip

/-- The extra arguments: nonblank lines of the stripped extra text, each
stripped. -/
def extraLines (st : FormState) : List String :=
  ((pySplitChar '\n' (pyStrip st.extraText)).filter (fun a => pyStrip a ≠ "")).map pyStrip

/-- The `cmd_parts` list assembled by `MainInterface.buildCommand`, in source
order (after the early return for an empty Python file field). -/
def cmdParts (st : FormState) : List String :=
  [pythonPath st, "-m", "nuitka"]
  ++ (if st.standalone then ["--standalone"] else ["--onefile"])
  ++ (if st.autoDownload then ["--assume-yes-for-downloads"] else [])
  ++ (if st.compiler = "MinGW64" then ["--mingw64"]
      else if st.compiler = "Clang" then ["--clang"]
      else if st.compiler = "MSVC" then ["--msvc=latest"]
      else [])
  ++ (if st.console then [] else ["--windows-disable-console"])
  ++ (if st.progress then ["--show-progress"] else [])
  ++ (if st.memory then ["--show-memory"] else [])
  ++ (if st.removeOutput then ["--remove-output"] else [])
  ++ (if st.lowMemory then ["--low-memory"] else [])
  ++ (if st.lto then ["--lto=yes"] else [])
  ++ (if st.outputDir ≠ "" then [optPart "output-dir" st.outputDir] else [])
  ++ (if st.outputName ≠ "" then [optPart "output-filename" st.outputName] else [])
  ++ (if st.outputIcon ≠ "" then [optPart "windows-icon-from-ico" st.outputIcon] else [])
  ++ (if enabledPlugins st ≠ [] then
        [optPart "enable-plugin" (pyJoin "," (enabledPlugins st))] else [])
  ++ (if pyStrip st.customPlugins ≠ "" then
        (if customPluginList st ≠ [] then
          [optPart "enable-plugin" (pyJoin "," (customPluginList st))] else [])
      else [])
  ++ (if st.followImports then
        (if st.includeMods ≠ "" then
          [optPart "follow-import-to" (pyRemoveSpaces st.includeMods)]
         else ["--follow-imports"])
      else ["--nofollow-imports"])
  ++ (if st.excludeMods ≠ "" then
        (pySplitChar ',' st.excludeMods).map (fun e => optPart "nofollow-import-to" (pyStrip e))
      else [])
  ++ (if pyStrip st.dataText ≠ "" then
        (dataLines st).map (fun l =>
          if pyContainsChar '=' l then optPart "include-data-files" l
          else optPart "include-data-dir" l)
      else [])
  ++ (getAssets st.assetRows).flatMap (fun a =>
        if a.enabled then
          (if a.type = "file" then [optPart "include-data-files" (a.source ++ "=" ++ a.target)]
           else if a.type = "folder" then [optPart "include-data-dir" (a.source ++ "=" ++ a.target)]
           else [])
        else [])
  ++ (if st.winCompany ≠ "" then [optPart "windows-company-name" st.winCompany] else [])
  ++ (if st.winProduct ≠ "" then [optPart "windows-product-name" st.winProduct] else [])
  ++ (if st.winVersion ≠ "" then [optPart "windows-file-version" st.winVersion] else [])
  ++ (if st.winDesc ≠ "" then [optPart "windows-file-description" st.winDesc] else [])
  ++ (if st.uac then ["--windows-uac-admin"] else [])
  ++ (if pyStrip st.extraText ≠ "" then extraLines st else [])
  ++ [st.fileEdit]

/-- `MainInterface.buildCommand`: on an empty Python file field, show the
inline error and return `None`; otherwise `' '.join(cmd_parts)`. -/
def buildCommandE (st : FormState) : Except String String :=
  if st.fileEdit = "" then .error "请选择要打包的Python文件！"
  else .ok (pyJoin " " (cmdParts st))

/-- `buildCommand` as seen by callers: `None` or the command string. -/
def buildCommand (st : FormState) : Option String :=
  (buildCommandE st).toOption

/-- `MainInterface.startPackage`: build the command, and only when it is
truthy (non-`None`, nonempty) hand it to the log interface to start the
worker.  Returns the command handed over, `none` when nothing starts. -/
def startPackage (st : FormState) : Option String :=
  match buildCommand st with
  | none => none
  | some c => if c = "" then none else some c

/-! ## JSON configuration (`getConfig` / `saveConfig` / `setConfig`) -/

/-- JSON values as produced by `getConfig` and consumed by `setConfig`
(strings, booleans, arrays, objects suffice for this config format). -/
inductive JVal where
  | str : String → JVal
  | bool : Bool → JVal
  | arr : List JVal → JVal
  | obj : List (String × JVal) → JVal

/-- Key lookup in an association list (Python `dict.get`, keys unique). -/
def lookupKV (kvs : List (String × JVal)) (k : String) : Option JVal :=
  match kvs with
  | [] => none
  | (k', v) :: rest => if k' = k then some v else lookupKV rest k

/-- `cfg.get(k)`: `none` when the key is missing or `cfg` is not an object. -/
def jGet (cfg : JVal) (k : String) : Option JVal :=
  match cfg with
  | .obj kvs => lookupKV kvs k
  | _ => none

/-- `cfg.get(k, d)` fed to `setText`: the stored string, else the default
(a non-string value, which would raise `TypeError` in Qt, is mapped to the
default). -/
def cfgStr (cfg : JVal) (k d : String) : String :=
  match jGet cfg k with
  | some (.str s) => s
  | some _ => d
  | none => d

/-- `cfg.get(k, d)` fed to `setChecked`: the stored boolean, else the default
(a non-boolean value, which would raise `TypeError` in Qt, is mapped to the
default). -/
def cfgBool (cfg : JVal) (k : String) (d : Bool) : Bool :=
  match jGet cfg k with
  | some (.bool b) => b
  | some _ => d
  | none => d

/-- `cfg.get(k, {})` for a section sub-dict; a missing key yields the empty
object. -/
def cfgObj (cfg : JVal) (k : String) : JVal :=
  match jGet cfg k with
  | some v => v
  | none => .obj []

/-- `cfg.get(k, [])` for the asset list; anything but an array yields `[]`. -/
def cfgArr (cfg : JVal) (k : String) : List JVal :=
  match jGet cfg k with
  | some (.arr l) => l
  | _ => []

/-- One entry of the `assets` list in the config record. -/
def assetToJson (a : AssetCfg) : JVal :=
  .obj [("enabled", .bool a.enabled), ("source", .str a.source),
        ("target", .str a.target), ("type", .str a.type)]

/-- `MainInterface.getConfig`: the config record, key for key in source
order. -/
def getConfig (st : FormState) : JVal :=
  .obj [
    ("python", .str st.pythonEdit),
    ("basic", .obj [
      ("file", .str st.fileEdit),
      ("mode", .str (if st.standalone then "standalone" else "onefile"))]),
    ("output", .obj [
      ("dir", .str st.outputDir),
      ("name", .str st.outputName),
      ("icon", .str st.outputIcon)]),
    ("compile", .obj [
      ("compiler", .str st.compiler),
      ("gcc_path", .str st.gccPath),
      ("auto_download", .bool st.autoDownload),
      ("console", .bool st.console),
      ("progress", .bool st.progress),
      ("memory", .bool st.memory),
      ("remove", .bool st.removeOutput)]),
    ("optimize", .obj [
      ("ccache", .bool st.ccache),
      ("low_memory", .bool st.lowMemory),
      ("lto", .bool st.lto)]),
    ("plugins", .obj ((pluginList st.plugins).map (fun p => (p.1, .bool p.2)))),
    ("custom_plugins", .str st.customPlugins),
    ("modules", .obj [
      ("follow_imports", .bool st.followImports),
      ("include", .str st.includeMods),
      ("exclude", .str st.excludeMods),
      ("data", .str st.dataText)]),
    ("assets", .arr ((getAssets st.assetRows).map assetToJson)),
    ("windows", .obj [
      ("company", .str st.winCompany),
      ("product", .str st.winProduct),
      ("version", .str st.winVersion),
      ("description", .str st.winDesc),
      ("uac", .bool st.uac)]),
    ("advanced", .obj [
      ("extra", .str st.extraText)])]

/-- `MainInterface.saveConfig` computes `config = self.getConfig()` and
`json.dump`s exactly that value; the serialized record is therefore
`getConfig` itself (file I/O abstracted away). -/
def saveConfigJson (st : FormState) : JVal := getConfig st

/-- The compiler combo items (`compilerCombo.addItems`). -/
def compilerItems : List String :=
  ["自动检测", "MSVC", "MinGW64", "Clang", "本地GCC"]

/-- `ComboBox.setCurrentText`: selects the item when the text is present,
otherwise leaves the selection unchanged. -/
def setCurrentText (items : List String) (cur t : String) : String :=
  if t ∈ items then t else cur

/-- The loop body of `AssetsInterface.setAssets`: entries whose `source` is
falsy are skipped; `enabled` defaults to true, `target` to
`basename source`, `type` to `"file"`.  `basename` models
`os.path.basename`. -/
def parseAsset (basename : String → String) (a : JVal) : Option AssetRow :=
  let source := match jGet a "source" with
    | some (.str s) => s
    | _ => ""
  if source = "" then none
  else some {
    enabled := cfgBool a "enabled" true,
    source := source,
    target := match jGet a "target" with
      | some (.str s) => s
      | some _ => ""
      | none => basename source,
    typeText :=
      match jGet a "type" with
      | some (.str s) => if s = "file" then "文件" else "文件夹"
      | some _ => "文件夹"
      | none => "文件" }

/-- `AssetsInterface.setAssets`: clear the table, then append one row per
parsed entry. -/
def setAssets (basename : String → String) (assets : List JVal) : List AssetRow :=
  assets.filterMap (parseAsset basename)

/-- `MainInterface.setConfig`: write the config record into the widgets,
field for field in source order, with the source's defaults for missing
keys.  `basename` models `os.path.basename` inside `setAssets`. -/
def setConfig (basename : String → String) (cfg : JVal) (st : FormState) : FormState :=
  let basic := cfgObj cfg "basic"
  let output := cfgObj cfg "output"
  let compileOpt := cfgObj cfg "compile"
  let optimize := cfgObj cfg "optimize"
  let plugins := cfgObj cfg "plugins"
  let modules := cfgObj cfg "modules"
  let windows := cfgObj cfg "windows"
  let advanced := cfgObj cfg "advanced"
  { st with
    pythonEdit := cfgStr cfg "python" "",
    fileEdit := cfgStr basic "file" "",
    standalone := (match jGet basic "mode" with
      | some (.str s) => if s = "onefile" then false else true
      | some _ => true
      | none => true),
    outputDir := cfgStr output "dir" "",
    outputName := cfgStr output "name" "",
    outputIcon := cfgStr output "icon" "",
    assetRows := setAssets basename (cfgArr cfg "assets"),
    compiler := setCurrentText compilerItems st.compiler
      (cfgStr compileOpt "compiler" "自动检测"),
    gccPath := cfgStr compileOpt "gcc_path" "",
    autoDownload := cfgBool compileOpt "auto_download" true,
    console := cfgBool compileOpt "console" true,
    progress := cfgBool compileOpt "progress" true,
    memory := cfgBool compileOpt "memory" true,
    removeOutput := cfgBool compileOpt "remove" true,
    ccache := cfgBool optimize "ccache" false,
    lowMemory := cfgBool optimize "low_memory" false,
    lto := cfgBool optimize "lto" false,
    plugins := {
      pyqt5 := cfgBool plugins "pyqt5" false,
      pyside2 := cfgBool plugins "pyside2" false,
      pyside6 := cfgBool plugins "pyside6" false,
      numpy := cfgBool plugins "numpy" false,
      torch := cfgBool plugins "torch" false,
      tensorflow := cfgBool plugins "tensorflow" false,
      matplotlib := cfgBool plugins "matplotlib" false,
      tkInter := cfgBool plugins "tk-inter" false },
    customPlugins := cfgStr cfg "custom_plugins" "",
    followImports := cfgBool modules "follow_imports" true,
    includeMods := cfgStr modules "include" "",
    excludeMods := cfgStr modules "exclude" "",
    dataText := cfgStr modules "data" "",
    winCompany := cfgStr windows "company" "",
    winProduct := cfgStr windows "product" "",
    winVersion := cfgStr windows "version" "",
    winDesc := cfgStr windows "description" "",
    uac := cfgBool windows "uac" false,
    extraText := cfgStr advanced "extra" "" }

/-! ## Worker thread (`PackageThread`) -/

/-- The `finished_signal` payload emitted by `PackageThread.run` once the
child process has exited with return code `rc`. -/
def finishEmit (rc : Int) : Bool × String :=
  if rc = 0 then (true, "打包成功完成！")
  else (false, "打包失败，返回代码：" ++ toString rc)

/-- The progress value the output loop of `PackageThread.run` emits for one
stdout line: only lines containing `%` are considered; the last
whitespace-separated token before the first `%` is fed to `int(...)`; a
missing token (`IndexError`) or failed parse (`ValueError`) is swallowed by
the bare `except`. -/
def progressOfLine (line : String) : Option Int :=
  if pyContainsChar '%' line then
    match (pySplitWs ((pySplitChar '%' line).headD "")).getLast? with
    | none => none
    | some tok => pyInt tok
  else none

/-- A signal sent towards the child process. -/
inductive PySig where
  | terminate : Nat → PySig
deriving DecidableEq, Repr

/-- The worker's process-related state: `process` is `none` until
`subprocess.Popen` has run. -/
structure PackageThreadState where
  command : String
  process : Option Nat
deriving DecidableEq, Repr

/-- `PackageThread.stop`: `if self.process: self.process.terminate()`.
Returns the unchanged state together with the signals sent; the guard makes
the call total (no `AttributeError` on a missing process). -/
def PackageThread.stop (s : PackageThreadState) : PackageThreadState × List PySig :=
  (s, match s.process with
      | some p => [PySig.terminate p]
      | none => [])

/-- `LogInterface.stopPackage`: forward to `PackageThread.stop` only when a
worker exists and is running. -/
def LogInterface.stopPackage (thread : Option (Bool × PackageThreadState)) : List PySig :=
  match thread with
  | some (running, s) => if running then (PackageThread.stop s).2 else []
  | none => []

/-! ## Sample states for witnesses and counterexamples -/

/-- A plain form state: all text fields empty except the Python file, widget
defaults everywhere else (switch defaults as in `setupUI`). -/
def sampleState : FormState :=
  { pythonEdit := "", fileEdit := "main.py", standalone := true,
    outputDir := "", outputName := "", outputIcon := "",
    compiler := "自动检测", gccPath := "",
    autoDownload := true, console := true, progress := true,
    memory := false, removeOutput := true, ccache := false,
    lowMemory := false, lto := false,
    plugins := { pyqt5 := false, pyside2 := false, pyside6 := false,
                 numpy := false, torch := false, tensorflow := false,
                 matplotlib := false, tkInter := false },
    customPlugins := "", followImports := true, includeMods := "",
    excludeMods := "", dataText := "", assetRows := [],
    winCompany := "", winProduct := "", winVersion := "", winDesc := "",
    uac := false, extraText := "" }

/-- The state fed to the C6 witness: `sampleState` with the Python file field
cleared. -/
def emptyFileState : FormState := { sampleState with fileEdit := "" }


/-- The state fed to the C10 witness: interpreter and script paths containing
spaces. -/
def spacedState : FormState :=
  { sampleState with fileEdit := "my app.py",
                     pythonEdit := "C:/Program Files/python.exe" }


/-- JSON scalars: the strings and booleans stored by `getConfig`. -/
def isScalar : JVal → Bool
  | .str _ => true
  | .bool _ => true
  | _ => false

/-- A flat object: every value is a scalar. -/
def flatObj : JVal → Bool
  | .obj kvs => kvs.all (fun kv => isScalar kv.2)
  | _ => false

/-- The key list of an object. -/
def jKeys : JVal → List String
  | .obj kvs => kvs.map (fun kv => kv.1)
  | _ => []

/-- The entry list of an object. -/
def jEntries : JVal → List (String × JVal)
  | .obj kvs => kvs
  | _ => []

/-- The top-level keys of the config record, in `getConfig` order. -/
def configTopKeys : List String :=
  ["python", "basic", "output", "compile", "optimize", "plugins",
   "custom_plugins", "modules", "assets", "windows", "advanced"]

/-- Shape of the config record: the fixed top-level keys; `python` and
`custom_plugins` map to scalars, `assets` to an array of flat objects, and
every other key to a flat object of field name to scalar value. -/
def configShape (j : JVal) : Prop :=
  jKeys j = configTopKeys ∧
  (∀ kv ∈ jEntries j,
    if kv.1 = "python" ∨ kv.1 = "custom_plugins" then isScalar kv.2 = true
    else if kv.1 = "assets" then
      ∃ l, kv.2 = .arr l ∧ ∀ v ∈ l, flatObj v = true
    else flatObj kv.2 = true)

/-- Invariant of asset-table rows: the source column is nonempty and the
type cell holds one of the two texts written by `addAsset`/`setAssets`
(every reachable row satisfies it: `addAsset` refuses empty paths and writes
only these two type texts, and `setAssets` skips source-less entries). -/
def rowOK (r : AssetRow) : Prop :=
  r.source ≠ "" ∧ (r.typeText = "文件" ∨ r.typeText = "文件夹")

/-- The state fed to the C8 witness: `sampleState` with two asset rows. -/
def assetState : FormState :=
  { sampleState with assetRows :=
      [{ enabled := false, source := "data.bin", target := "data.bin",
         typeText := "文件" },
       { enabled := true, source := "res", target := "resdir",
         typeText := "文件夹" }] }


/-- The eight boolean option switches whose flag is appended by
`buildCommand` exactly when a fixed condition on that one switch holds. -/
inductive Toggle where
  | autoDownload | console | progress | memory | removeOutput
  | lowMemory | lto | uac
deriving DecidableEq, Repr

/-- The fixed literal command-line flag of each switch. -/
def flagOf : Toggle → String
  | .autoDownload => "--assume-yes-for-downloads"
  | .console => "--windows-disable-console"
  | .progress => "--show-progress"
  | .memory => "--show-memory"
  | .removeOutput => "--remove-output"
  | .lowMemory => "--low-memory"
  | .lto => "--lto=yes"
  | .uac => "--windows-uac-admin"

/-- Whether the switch's flag is active in a form state (the console switch
is inverted: its flag is emitted when the switch is off). -/
def toggleOn : Toggle → FormState → Bool
  | .autoDownload, st => st.autoDownload
  | .console, st => !st.console
  | .progress, st => st.progress
  | .memory, st => st.memory
  | .removeOutput, st => st.removeOutput
  | .lowMemory, st => st.lowMemory
  | .lto, st => st.lto
  | .uac, st => st.uac

/-- Flip one switch, leaving the rest of the form state unchanged. -/
def flipToggle : Toggle → FormState → FormState
  | .autoDownload, st => { st with autoDownload := !st.autoDownload }
  | .console, st => { st with console := !st.console }
  | .progress, st => { st with progress := !st.progress }
  | .memory, st => { st with memory := !st.memory }
  | .removeOutput, st => { st with removeOutput := !st.removeOutput }
  | .lowMemory, st => { st with lowMemory := !st.lowMemory }
  | .lto, st => { st with lto := !st.lto }
  | .uac, st => { st with uac := !st.uac }

/-- `l2` differs from `l` exactly by one inserted or one removed occurrence
of `f`, everything else unchanged in place. -/
def singleFlagDelta (l l2 : List String) (f : String) : Prop :=
  (∃ pre post, l = pre ++ post ∧ l2 = pre ++ f :: post) ∨
  (∃ pre post, l2 = pre ++ post ∧ l = pre ++ f :: post)

/-- The state fed to the C2 counterexample: `sampleState` with the
follow-imports switch turned off. -/
def followFlipState : FormState := { sampleState with followImports := false }


/-- The option names of every `--name=value` part `buildCommand` can emit. -/
def optNames : List String :=
  ["output-dir", "output-filename", "windows-icon-from-ico", "enable-plugin",
   "follow-import-to", "nofollow-import-to", "include-data-files",
   "include-data-dir", "windows-company-name", "windows-product-name",
   "windows-file-version", "windows-file-description"]

/-- The boolean options whose fixed flag the command contains exactly when
the option is enabled: the eight switches plus the two mode radio buttons. -/
inductive OptFlag where
  | standalone | onefile | autoDownload | console | progress | memory
  | removeOutput | lowMemory | lto | uac
deriving DecidableEq, Repr

/-- The fixed literal flag of each boolean option. -/
def optFlagStr : OptFlag → String
  | .standalone => "--standalone"
  | .onefile => "--onefile"
  | .autoDownload => "--assume-yes-for-downloads"
  | .console => "--windows-disable-console"
  | .progress => "--show-progress"
  | .memory => "--show-memory"
  | .removeOutput => "--remove-output"
  | .lowMemory => "--low-memory"
  | .lto => "--lto=yes"
  | .uac => "--windows-uac-admin"

/-- Whether each boolean option is enabled (the console switch's flag means
"disable console", the onefile radio is the negation of standalone). -/
def optFlagOn : OptFlag → FormState → Bool
  | .standalone, st => st.standalone
  | .onefile, st => !st.standalone
  | .autoDownload, st => st.autoDownload
  | .console, st => !st.console
  | .progress, st => st.progress
  | .memory, st => st.memory
  | .removeOutput, st => st.removeOutput
  | .lowMemory, st => st.lowMemory
  | .lto, st => st.lto
  | .uac, st => st.uac

/-- The state fed to the C1 counterexample: the show-progress switch is off
but its literal flag is typed into the extra-arguments text box. -/
def injectedState : FormState :=
  { sampleState with progress := false, extraText := "--show-progress" }

/-! ## Theorems -/

theorem any_source_of_mem {rows : List AssetRow} {path : String}
    (h : ∃ r ∈ rows, r.source = path) :
    rows.any (fun r => r.source = path) = true := by
  rcases h with ⟨r, hr, hs⟩
  exact List.any_eq_true.mpr ⟨r, hr, by simp [hs]⟩

theorem addAsset_nodup_sources (isFile : Bool) (basename : String)
    (rows : List AssetRow) (path : String) (tp : Option String)
    (h : (rows.map (fun r => r.source)).Nodup) :
    ((addAsset isFile basename rows path tp).map (fun r => r.source)).Nodup := by
  unfold addAsset
  split
  · exact h
  · split
    next hany => exact h
    next hany =>
      rw [List.map_append, List.nodup_append]
      refine ⟨h, by simp, ?_⟩
      intro s hs
      simp only [List.map_cons, List.map_nil, List.mem_singleton]
      intro hsp
      subst hsp
      rcases List.mem_map.mp hs with ⟨r, hr, hrs⟩
      exact hany (List.any_eq_true.mpr ⟨r, hr, by simp [hrs]⟩)

theorem addAssetFold_nodup_sources (calls : List AddCall) (rows : List AssetRow)
    (h : (rows.map (fun r => r.source)).Nodup) :
    ((addAssetFold rows calls).map (fun r => r.source)).Nodup := by
  induction calls generalizing rows with
  | nil => exact h
  | cons c cs ih =>
      exact ih _ (addAsset_nodup_sources c.isFile c.basename rows c.path c.targetPath h)

/-- C9: `addAsset` is idempotent on source paths — adding a path already
present in the source column leaves the table unchanged — and consequently
any sequence of `addAsset` calls starting from the empty table yields rows
with pairwise distinct source paths. -/
theorem addAsset_idempotent_and_distinct :
    (∀ (isFile : Bool) (basename : String) (rows : List AssetRow)
       (path : String) (tp : Option String),
      (∃ r ∈ rows, r.source = path) →
      addAsset isFile basename rows path tp = rows) ∧
    (∀ calls : List AddCall,
      ((addAssetFold [] calls).map (fun r => r.source)).Nodup) := by
  constructor
  · intro isFile basename rows path tp h
    unfold addAsset
    split
    · rfl
    · rw [if_pos (any_source_of_mem h)]
  · intro calls
    exact addAssetFold_nodup_sources calls [] (by simp)

/-- C9 witness: a path already in the table is refused, and a concrete call
sequence with a duplicate yields distinct sources. -/
theorem addAsset_idempotent_and_distinct_witness :
    addAsset true "a.txt" [{ enabled := true, source := "a.txt",
                             target := "a.txt", typeText := "文件" }]
      "a.txt" none
      = [{ enabled := true, source := "a.txt",
           target := "a.txt", typeText := "文件" }] ∧
    ((addAssetFold []
        [{ isFile := true, basename := "a.txt", path := "a.txt", targetPath := none },
         { isFile := false, basename := "d", path := "d", targetPath := none },
         { isFile := true, basename := "a.txt", path := "a.txt", targetPath := none }]).map
      (fun r => r.source)).Nodup :=
  ⟨addAsset_idempotent_and_distinct.1 true "a.txt" _ "a.txt" none
      ⟨{ enabled := true, source := "a.txt", target := "a.txt", typeText := "文件" },
       by simp, rfl⟩,
   addAsset_idempotent_and_distinct.2 _⟩

/-- C4: once the child process has exited with return code `rc`,
`PackageThread.run` emits `finished_signal` with success exactly when
`rc = 0`, and every non-zero `rc` yields failure with a message containing
the decimal exit code. -/
theorem finishEmit_success_iff (rc : Int) :
    ((finishEmit rc).1 = true ↔ rc = 0) ∧
    (rc ≠ 0 → (finishEmit rc).1 = false ∧
      (toString rc).data <:+: (finishEmit rc).2.data) := by
  constructor
  · unfold finishEmit
    split
    next hz => simp [hz]
    next hz => simp [hz]
  · intro h
    unfold finishEmit
    rw [if_neg h]
    refine ⟨rfl, ?_⟩
    show (toString rc).data <:+: ("打包失败，返回代码：" ++ toString rc).data
    rw [String.data_append]
    exact ⟨"打包失败，返回代码：".data, [], by simp⟩

/-- C4 witness: concrete exit codes 0 and 2. -/
theorem finishEmit_success_iff_witness :
    (finishEmit 0).1 = true ∧ (finishEmit 2).1 = false ∧
    (toString (2 : Int)).data <:+: (finishEmit 2).2.data :=
  ⟨(finishEmit_success_iff 0).1.mpr rfl,
   ((finishEmit_success_iff 2).2 (by decide)).1,
   ((finishEmit_success_iff 2).2 (by decide)).2⟩

/-- C5: a progress value `v` is emitted for a forwarded stdout line exactly
when the line contains `%`, the text before the first `%` has a last
whitespace-separated token, and Python's `int` parses that token as `v`; in
particular no `%`, no last token, or an unparsable token emits nothing. -/
theorem progressOfLine_spec (line : String) (v : Int) :
    progressOfLine line = some v ↔
      (pyContainsChar '%' line = true ∧
       ∃ t, (pySplitWs ((pySplitChar '%' line).headD "")).getLast? = some t ∧
            pyInt t = some v) := by
  unfold progressOfLine
  split
  next h =>
    cases hl : (pySplitWs ((pySplitChar '%' line).headD "")).getLast? with
    | none => simp [h, hl]
    | some t => simp [h, hl]
  next h => simp [h]

/-- C6: with an empty Python file field, `buildCommand` reports the inline
error and returns `None`, and `startPackage` therefore starts nothing. -/
theorem buildCommand_empty_file (st : FormState) (h : st.fileEdit = "") :
    buildCommandE st = .error "请选择要打包的Python文件！" ∧
    buildCommand st = none ∧ startPackage st = none := by
  unfold startPackage buildCommand buildCommandE
  rw [if_pos h]
  exact ⟨rfl, rfl, rfl⟩

/-- C6 witness: the sample state with a cleared file field. -/
theorem buildCommand_empty_file_witness :
    buildCommandE emptyFileState = .error "请选择要打包的Python文件！" ∧
    buildCommand emptyFileState = none ∧ startPackage emptyFileState = none :=
  buildCommand_empty_file emptyFileState rfl

/-- C7: `PackageThread.stop` never changes the thread state; it sends a
terminate signal exactly to a started child process and is a signal-free
no-op when no process exists. -/
theorem stop_best_effort (s : PackageThreadState) :
    (PackageThread.stop s).1 = s ∧
    (s.process = none → (PackageThread.stop s).2 = []) ∧
    (∀ p, s.process = some p →
      (PackageThread.stop s).2 = [PySig.terminate p]) := by
  refine ⟨rfl, ?_, ?_⟩
  · intro h
    unfold PackageThread.stop
    rw [h]
  · intro p h
    unfold PackageThread.stop
    rw [h]

/-- C7 witness: a worker without a child process and one with pid 7. -/
theorem stop_best_effort_witness :
    (PackageThread.stop { command := "c", process := none }).2 = [] ∧
    (PackageThread.stop { command := "c", process := some 7 }).2
      = [PySig.terminate 7] :=
  ⟨(stop_best_effort { command := "c", process := none }).2.1 rfl,
   (stop_best_effort { command := "c", process := some 7 }).2.2 7 rfl⟩

theorem splitOnP_append_cons {α : Type} [BEq α] (P : α → Bool) (sep : α)
    (hs : P sep = true) (xs ys : List α) :
    (xs ++ sep :: ys).splitOnP P = xs.splitOnP P ++ ys.splitOnP P := by
  induction xs with
  | nil => simp [List.splitOnP_cons, hs]
  | cons x xs ih =>
    simp only [List.cons_append, List.splitOnP_cons, ih]
    split
    · rfl
    · cases h : xs.splitOnP P with
      | nil => exact absurd h (List.splitOnP_ne_nil _ _)
      | cons a as => simp [h, List.modifyHead]

theorem splitOn_append_cons {α : Type} [DecidableEq α] (sep : α) (xs ys : List α) :
    (xs ++ sep :: ys).splitOn sep = xs.splitOn sep ++ ys.splitOn sep :=
  splitOnP_append_cons _ sep (by simp) xs ys

theorem intercalate_cons_cons {α : Type} (sep : List α) (x y : List α) (l : List (List α)) :
    List.intercalate sep (x :: y :: l) = x ++ sep ++ List.intercalate sep (y :: l) := by
  simp [List.intercalate, List.intersperse]

theorem splitOn_intercalate_flatMap {α : Type} [DecidableEq α] (sep : α)
    (parts : List (List α)) (h : parts ≠ []) :
    (List.intercalate [sep] parts).splitOn sep
      = parts.flatMap (fun p => p.splitOn sep) := by
  induction parts with
  | nil => exact absurd rfl h
  | cons p ps ih =>
    cases ps with
    | nil => simp [List.intercalate]
    | cons q qs =>
      rw [intercalate_cons_cons, List.append_assoc, List.singleton_append,
        splitOn_append_cons, ih (by simp)]
      simp

theorem pyJoin_data (sep : String) (l : List String) :
    (pyJoin sep l).data = List.intercalate sep.data (l.map String.data) := by
  induction l with
  | nil => simp [pyJoin, List.intercalate]
  | cons x xs ih =>
    cases xs with
    | nil => simp [pyJoin, List.intercalate]
    | cons y ys =>
      rw [pyJoin, String.data_append, String.data_append, ih]
      simp only [List.map_cons]
      rw [intercalate_cons_cons]

theorem mem_splitOnP_no_sep {α : Type} (P : α → Bool) (l : List α) :
    ∀ t ∈ l.splitOnP P, ∀ x ∈ t, ¬ (P x = true) := by
  induction l with
  | nil =>
    intro t ht
    simp only [List.splitOnP_nil, List.mem_singleton] at ht
    subst ht
    intro x hx
    cases hx
  | cons a l ih =>
    intro t ht
    rw [List.splitOnP_cons] at ht
    by_cases hP : P a = true
    · rw [if_pos hP] at ht
      rcases List.mem_cons.mp ht with rfl | ht
      · intro x hx; cases hx
      · exact ih t ht
    · rw [if_neg hP] at ht
      cases h : l.splitOnP P with
      | nil => exact absurd h (List.splitOnP_ne_nil _ _)
      | cons b bs =>
        rw [h, List.modifyHead] at ht
        rcases List.mem_cons.mp ht with rfl | ht
        · intro x hx
          rcases List.mem_cons.mp hx with rfl | hx
          · exact hP
          · exact ih b (by rw [h]; exact List.mem_cons_self b bs) x hx
        · exact ih t (by rw [h]; exact List.mem_cons_of_mem b ht)

theorem mem_splitOn_no_sep {α : Type} [DecidableEq α] (sep : α) (l : List α)
    (t : List α) (ht : t ∈ l.splitOn sep) : sep ∉ t := by
  intro hmem
  exact mem_splitOnP_no_sep _ l t ht sep hmem (by simp)

theorem splitOnP_length {α : Type} (P : α → Bool) (l : List α) :
    (l.splitOnP P).length = l.countP P + 1 := by
  induction l with
  | nil => simp
  | cons a l ih =>
    rw [List.splitOnP_cons, List.countP_cons]
    by_cases hP : P a = true
    · rw [if_pos hP, List.length_cons, ih]
      simp [hP]
    · rw [if_neg hP, List.length_modifyHead, ih]
      simp [hP]

theorem splitOn_length {α : Type} [DecidableEq α] (sep : α) (l : List α) :
    (l.splitOn sep).length = l.count sep + 1 := by
  rw [List.splitOn, splitOnP_length, List.count]

/-- Canonical right-associated form of `cmdParts`. -/
theorem cmdParts_eq (st : FormState) :
    cmdParts st =
      pythonPath st :: "-m" :: "nuitka" ::
      ((if st.standalone then ["--standalone"] else ["--onefile"])
      ++ ((if st.autoDownload then ["--assume-yes-for-downloads"] else [])
      ++ ((if st.compiler = "MinGW64" then ["--mingw64"]
          else if st.compiler = "Clang" then ["--clang"]
          else if st.compiler = "MSVC" then ["--msvc=latest"]
          else [])
      ++ ((if st.console then [] else ["--windows-disable-console"])
      ++ ((if st.progress then ["--show-progress"] else [])
      ++ ((if st.memory then ["--show-memory"] else [])
      ++ ((if st.removeOutput then ["--remove-output"] else [])
      ++ ((if st.lowMemory then ["--low-memory"] else [])
      ++ ((if st.lto then ["--lto=yes"] else [])
      ++ ((if st.outputDir ≠ "" then [optPart "output-dir" st.outputDir] else [])
      ++ ((if st.outputName ≠ "" then [optPart "output-filename" st.outputName] else [])
      ++ ((if st.outputIcon ≠ "" then [optPart "windows-icon-from-ico" st.outputIcon] else [])
      ++ ((if enabledPlugins st ≠ [] then
            [optPart "enable-plugin" (pyJoin "," (enabledPlugins st))] else [])
      ++ ((if pyStrip st.customPlugins ≠ "" then
            (if customPluginList st ≠ [] then
              [optPart "enable-plugin" (pyJoin "," (customPluginList st))] else [])
          else [])
      ++ ((if st.followImports then
            (if st.includeMods ≠ "" then
              [optPart "follow-import-to" (pyRemoveSpaces st.includeMods)]
             else ["--follow-imports"])
          else ["--nofollow-imports"])
      ++ ((if st.excludeMods ≠ "" then
            (pySplitChar ',' st.excludeMods).map (fun e => optPart "nofollow-import-to" (pyStrip e))
          else [])
      ++ ((if pyStrip st.dataText ≠ "" then
            (dataLines st).map (fun l =>
              if pyContainsChar '=' l then optPart "include-data-files" l
              else optPart "include-data-dir" l)
          else [])
      ++ (((getAssets st.assetRows).flatMap (fun a =>
            if a.enabled then
              (if a.type = "file" then [optPart "include-data-files" (a.source ++ "=" ++ a.target)]
               else if a.type = "folder" then [optPart "include-data-dir" (a.source ++ "=" ++ a.target)]
               else [])
            else []))
      ++ ((if st.winCompany ≠ "" then [optPart "windows-company-name" st.winCompany] else [])
      ++ ((if st.winProduct ≠ "" then [optPart "windows-product-name" st.winProduct] else [])
      ++ ((if st.winVersion ≠ "" then [optPart "windows-file-version" st.winVersion] else [])
      ++ ((if st.winDesc ≠ "" then [optPart "windows-file-description" st.winDesc] else [])
      ++ ((if st.uac then ["--windows-uac-admin"] else [])
      ++ ((if pyStrip st.extraText ≠ "" then extraLines st else [])
      ++ [st.fileEdit])))))))))))))))))))))))) := by
  rw [cmdParts]
  simp only [List.append_assoc, List.cons_append, List.nil_append]

theorem cmdParts_eq_concat (st : FormState) :
    ∃ front, cmdParts st = front ++ [st.fileEdit] :=
  ⟨_, rfl⟩

theorem cmdParts_eq_cons (st : FormState) :
    ∃ rest, cmdParts st = pythonPath st :: rest :=
  ⟨_, cmdParts_eq st⟩

theorem cmdTokens_eq (st : FormState) :
    (pyJoin " " (cmdParts st)).data.splitOn ' '
      = (cmdParts st).flatMap (fun p => p.data.splitOn ' ') := by
  rw [pyJoin_data]
  have hne : (cmdParts st).map String.data ≠ [] := by
    rcases cmdParts_eq_concat st with ⟨front, hf⟩
    rw [hf]
    simp
  rw [show (" ".data : List Char) = [' '] from rfl]
  rw [splitOn_intercalate_flatMap ' ' _ hne, List.flatMap_map]

/-- C10: `buildCommand` joins the parts with single spaces and inserts the
interpreter path (head part) and the script path (last part) verbatim with no
quoting, so a path containing a space spans at least two space-separated
tokens of the command string (its own space-split pieces), and is itself not
among those tokens. -/
theorem buildCommand_no_quoting (st : FormState) (h : st.fileEdit ≠ "") :
    buildCommand st = some (pyJoin " " (cmdParts st)) ∧
    (cmdParts st).getLast? = some st.fileEdit ∧
    (cmdParts st).head? = some (pythonPath st) ∧
    (' ' ∈ st.fileEdit.data →
      2 ≤ (st.fileEdit.data.splitOn ' ').length ∧
      st.fileEdit.data.splitOn ' ' <:+ (pyJoin " " (cmdParts st)).data.splitOn ' ' ∧
      st.fileEdit.data ∉ (pyJoin " " (cmdParts st)).data.splitOn ' ') ∧
    (st.pythonEdit ≠ "" → ' ' ∈ st.pythonEdit.data →
      2 ≤ (st.pythonEdit.data.splitOn ' ').length ∧
      st.pythonEdit.data.splitOn ' ' <+: (pyJoin " " (cmdParts st)).data.splitOn ' ' ∧
      st.pythonEdit.data ∉ (pyJoin " " (cmdParts st)).data.splitOn ' ') := by
  refine ⟨?_, ?_, ?_, ?_, ?_⟩
  · unfold buildCommand buildCommandE
    rw [if_neg h]
    rfl
  · rcases cmdParts_eq_concat st with ⟨front, hf⟩
    rw [hf, List.getLast?_concat]
  · rcases cmdParts_eq_cons st with ⟨rest, hr⟩
    rw [hr, List.head?_cons]
  · intro hsp
    refine ⟨?_, ?_, ?_⟩
    · rw [splitOn_length]
      have : 1 ≤ st.fileEdit.data.count ' ' := List.one_le_count_iff.mpr hsp
      omega
    · rw [cmdTokens_eq]
      rcases cmdParts_eq_concat st with ⟨front, hf⟩
      rw [hf, List.flatMap_append]
      refine ⟨front.flatMap (fun p => List.splitOn ' ' p.data), ?_⟩
      simp
    · intro hmem
      exact mem_splitOn_no_sep ' ' _ _ hmem hsp
  · intro hne hsp
    refine ⟨?_, ?_, ?_⟩
    · rw [splitOn_length]
      have : 1 ≤ st.pythonEdit.data.count ' ' := List.one_le_count_iff.mpr hsp
      omega
    · rw [cmdTokens_eq]
      rcases cmdParts_eq_cons st with ⟨rest, hr⟩
      rw [hr, List.flatMap_cons]
      have hpy : pythonPath st = st.pythonEdit := if_neg hne
      rw [hpy]
      exact ⟨_, rfl⟩
    · intro hmem
      exact mem_splitOn_no_sep ' ' _ _ hmem hsp

/-- C10 witness: the space-containing paths of `spacedState`. -/
theorem buildCommand_no_quoting_witness :
    2 ≤ (spacedState.fileEdit.data.splitOn ' ').length ∧
    spacedState.fileEdit.data ∉ (pyJoin " " (cmdParts spacedState)).data.splitOn ' ' ∧
    spacedState.pythonEdit.data.splitOn ' '
      <+: (pyJoin " " (cmdParts spacedState)).data.splitOn ' ' := by
  have h := buildCommand_no_quoting spacedState (by decide)
  exact ⟨(h.2.2.2.1 (by decide)).1, (h.2.2.2.1 (by decide)).2.2,
         (h.2.2.2.2 (by decide) (by decide)).2.1⟩

/-- C3 counterexample: the config record produced by `getConfig` is not a
flat key/value mapping — at the sample state the top-level key `basic` holds
a nested object, not a scalar. -/
theorem getConfig_not_flat :
    flatObj (getConfig sampleState) = false ∧
    jGet (getConfig sampleState) "basic"
      = some (.obj [("file", .str "main.py"), ("mode", .str "standalone")]) := by
  constructor
  · rfl
  · rfl

/-- C3 (amended): the saved configuration is a two-level JSON record —
`getConfig` maps the fixed top-level keys to scalars (`python`,
`custom_plugins`), an array of flat asset objects (`assets`), and flat
field-to-scalar objects otherwise, and `saveConfig` serializes exactly the
record `getConfig` returns. -/
theorem getConfig_two_level (st : FormState) :
    configShape (getConfig st) ∧ saveConfigJson st = getConfig st := by
  refine ⟨⟨rfl, ?_⟩, rfl⟩
  intro kv hkv
  simp only [getConfig, jEntries, List.mem_cons, List.not_mem_nil, or_false] at hkv
  rcases hkv with h|h|h|h|h|h|h|h|h|h|h <;> subst h <;> simp [isScalar, flatObj, pluginList]
  · -- assets case
    intro v hv
    rcases List.mem_map.mp hv with ⟨a, ha, rfl⟩
    rfl

theorem parseAsset_getAssetCfg (bn : String → String) (r : AssetRow)
    (hr : rowOK r) :
    parseAsset bn (assetToJson (getAssetCfg r)) = some r := by
  obtain ⟨en, src, tgt, ty⟩ := r
  obtain ⟨h1, h2⟩ := hr
  simp only [parseAsset, assetToJson, getAssetCfg, jGet, lookupKV, cfgBool]
  simp only at h1
  simp [h1]
  rcases h2 with h | h <;> simp_all

theorem setAssets_getAssets (bn : String → String) (rows : List AssetRow)
    (h : ∀ r ∈ rows, rowOK r) :
    setAssets bn ((getAssets rows).map assetToJson) = rows := by
  induction rows with
  | nil => rfl
  | cons r rs ih =>
    rw [getAssets, List.map_cons, List.map_cons, setAssets, List.filterMap_cons,
      parseAsset_getAssetCfg bn r (h r (List.mem_cons_self r rs))]
    rw [setAssets, getAssets] at ih
    rw [ih (fun x hx => h x (List.mem_cons_of_mem r hx))]

/-- C8: the save/load round trip restores the form state exactly —
`setConfig` applied to the record produced by `getConfig` over any form
state whose asset rows satisfy the table invariant `rowOK` (nonempty source,
one of the two type texts) reproduces every field: texts, switches, radio
selection, combo, plugin checkboxes, and asset rows. -/
theorem setConfig_getConfig (bn : String → String) (st : FormState)
    (h : ∀ r ∈ st.assetRows, rowOK r) :
    setConfig bn (getConfig st) st = st := by
  obtain ⟨pe, fe, sa, od, onm, oi, cp, gp, ad, co, pr, me, ro, cc, lm, lt, pl,
    cu, fi, im, em, da, ar, wc, wp, wv, wd, ua, ex⟩ := st
  obtain ⟨p1, p2, p3, p4, p5, p6, p7, p8⟩ := pl
  simp only at h
  simp only [setConfig, getConfig, pluginList, cfgObj, cfgStr, cfgBool, cfgArr,
    jGet, lookupKV, setCurrentText, compilerItems]
  simp only [FormState.mk.injEq]
  refine ⟨rfl, rfl, ?_, rfl, rfl, rfl, ?_, rfl, rfl, rfl, rfl, rfl, rfl, rfl,
    rfl, rfl, ?_, rfl, rfl, rfl, rfl, rfl, ?_, rfl, rfl, rfl, rfl, rfl, rfl⟩
  · cases sa <;> simp [lookupKV]
  · exact ite_self _
  · rfl
  · exact setAssets_getAssets bn ar h

/-- C8 witness: the round trip at a concrete state with two asset rows. -/
theorem setConfig_getConfig_witness :
    setConfig (fun s => s) (getConfig assetState) assetState = assetState :=
  setConfig_getConfig (fun s => s) assetState (by simp only [rowOK]; decide)

theorem delta_ins (B : List String) (f : String) : singleFlagDelta B (f :: B) f :=
  Or.inl ⟨[], B, rfl, rfl⟩

theorem delta_del (B : List String) (f : String) : singleFlagDelta (f :: B) B f :=
  Or.inr ⟨[], B, rfl, rfl⟩

theorem delta_cons (x : String) {l l2 : List String} {f : String}
    (h : singleFlagDelta l l2 f) : singleFlagDelta (x :: l) (x :: l2) f := by
  rcases h with ⟨p, q, rfl, rfl⟩ | ⟨p, q, rfl, rfl⟩
  · exact Or.inl ⟨x :: p, q, rfl, rfl⟩
  · exact Or.inr ⟨x :: p, q, rfl, rfl⟩

theorem delta_append (X : List String) {l l2 : List String} {f : String}
    (h : singleFlagDelta l l2 f) : singleFlagDelta (X ++ l) (X ++ l2) f := by
  induction X with
  | nil => exact h
  | cons x xs ih => exact delta_cons x ih

theorem singleFlagDelta_length {l l2 : List String} {f : String}
    (h : singleFlagDelta l l2 f) :
    l2.length = l.length + 1 ∨ l.length = l2.length + 1 := by
  rcases h with ⟨p, q, rfl, rfl⟩ | ⟨p, q, rfl, rfl⟩ <;> simp <;> omega

/-- C2 (amended): each of the eight boolean option switches maps one-to-one
to its fixed literal flag — flipping that switch alone changes `cmd_parts`
exactly by inserting or removing the flag, leaving every other part
unchanged in place.  (The follow-imports switch, which swaps fragments
instead, is the counterexample to the unrestricted claim.) -/
theorem toggle_single_flag (st : FormState) (t : Toggle) (h : st.fileEdit ≠ "") :
    buildCommand st = some (pyJoin " " (cmdParts st)) ∧
    buildCommand (flipToggle t st) = some (pyJoin " " (cmdParts (flipToggle t st))) ∧
    singleFlagDelta (cmdParts st) (cmdParts (flipToggle t st)) (flagOf t) := by
  obtain ⟨pe, fe, sa, od, onm, oi, cp, gp, ad, co, pr, me, ro, cc, lm, lt, pl,
    cu, fi, im, em, da, ar, wc, wp, wv, wd, ua, ex⟩ := st
  simp only at h
  refine ⟨?_, ?_, ?_⟩
  · unfold buildCommand buildCommandE
    rw [if_neg h]
    rfl
  · unfold buildCommand buildCommandE
    cases t <;> dsimp only [flipToggle] <;> rw [if_neg h] <;> rfl
  · cases t <;> dsimp only [flipToggle, flagOf] <;>
      simp only [cmdParts_eq] <;> dsimp only
    case autoDownload =>
      cases ad <;> simp only [Bool.not_true, Bool.not_false, if_true, if_false]
      all_goals
        repeat (first
          | exact delta_del _ _
          | exact delta_ins _ _
          | apply delta_cons
          | apply delta_append)
    case console =>
      cases co <;> simp only [Bool.not_true, Bool.not_false, if_true, if_false]
      all_goals
        repeat (first
          | exact delta_del _ _
          | exact delta_ins _ _
          | apply delta_cons
          | apply delta_append)
    case progress =>
      cases pr <;> simp only [Bool.not_true, Bool.not_false, if_true, if_false]
      all_goals
        repeat (first
          | exact delta_del _ _
          | exact delta_ins _ _
          | apply delta_cons
          | apply delta_append)
    case memory =>
      cases me <;> simp only [Bool.not_true, Bool.not_false, if_true, if_false]
      all_goals
        repeat (first
          | exact delta_del _ _
          | exact delta_ins _ _
          | apply delta_cons
          | apply delta_append)
    case removeOutput =>
      cases ro <;> simp only [Bool.not_true, Bool.not_false, if_true, if_false]
      all_goals
        repeat (first
          | exact delta_del _ _
          | exact delta_ins _ _
          | apply delta_cons
          | apply delta_append)
    case lowMemory =>
      cases lm <;> simp only [Bool.not_true, Bool.not_false, if_true, if_false]
      all_goals
        repeat (first
          | exact delta_del _ _
          | exact delta_ins _ _
          | apply delta_cons
          | apply delta_append)
    case lto =>
      cases lt <;> simp only [Bool.not_true, Bool.not_false, if_true, if_false]
      all_goals
        repeat (first
          | exact delta_del _ _
          | exact delta_ins _ _
          | apply delta_cons
          | apply delta_append)
    case uac =>
      cases ua <;> simp only [Bool.not_true, Bool.not_false, if_true, if_false]
      all_goals
        repeat (first
          | exact delta_del _ _
          | exact delta_ins _ _
          | apply delta_cons
          | apply delta_append)

/-- C2 witness: flipping the show-progress switch on the sample state. -/
theorem toggle_single_flag_witness :
    singleFlagDelta (cmdParts sampleState)
      (cmdParts (flipToggle Toggle.progress sampleState))
      (flagOf Toggle.progress) :=
  (toggle_single_flag sampleState Toggle.progress (by decide)).2.2

/-- C2 counterexample: flipping the follow-imports switch does not append or
remove any single fixed flag — it swaps `--follow-imports` for
`--nofollow-imports`, so no string `f` satisfies the claimed
insert-or-remove relation between the two commands. -/
theorem follow_flip_not_single_flag :
    cmdParts sampleState ≠ cmdParts followFlipState ∧
    ¬ ∃ f, singleFlagDelta (cmdParts sampleState) (cmdParts followFlipState) f := by
  have e1 : cmdParts sampleState =
      ["python", "-m", "nuitka", "--standalone", "--assume-yes-for-downloads",
       "--show-progress", "--remove-output", "--follow-imports", "main.py"] := by
    rfl
  have e2 : cmdParts followFlipState =
      ["python", "-m", "nuitka", "--standalone", "--assume-yes-for-downloads",
       "--show-progress", "--remove-output", "--nofollow-imports", "main.py"] := by
    rfl
  rw [e1, e2]
  constructor
  · decide
  · rintro ⟨f, hf⟩
    have hlen := singleFlagDelta_length hf
    simp at hlen

theorem mem_ite {α : Type} {c : Prop} [Decidable c] {l1 l2 : List α} {x : α} :
    (x ∈ if c then l1 else l2) ↔ (c ∧ x ∈ l1) ∨ (¬ c ∧ x ∈ l2) := by
  split
  next h => simp [h]
  next h => simp [h]

theorem flag_ne_optPart (n v f : String)
    (hp : ¬ (("--" ++ n ++ "=").data <+: f.data)) : f ≠ optPart n v := by
  intro he
  apply hp
  rw [he]
  show _ <+: (("--" ++ n ++ "=") ++ v).data
  rw [String.data_append]
  exact ⟨v.data, rfl⟩

theorem mem_cmdParts_cases (st : FormState) (f : String) (hmem : f ∈ cmdParts st) :
    f = pythonPath st ∨
    f = "-m" ∨
    f = "nuitka" ∨
    (st.standalone = true ∧ f = "--standalone") ∨
    (st.standalone = false ∧ f = "--onefile") ∨
    (st.autoDownload = true ∧ f = "--assume-yes-for-downloads") ∨
    (f = "--mingw64" ∨ f = "--clang" ∨ f = "--msvc=latest") ∨
    (st.console = false ∧ f = "--windows-disable-console") ∨
    (st.progress = true ∧ f = "--show-progress") ∨
    (st.memory = true ∧ f = "--show-memory") ∨
    (st.removeOutput = true ∧ f = "--remove-output") ∨
    (st.lowMemory = true ∧ f = "--low-memory") ∨
    (st.lto = true ∧ f = "--lto=yes") ∨
    (∃ n v, n ∈ optNames ∧ f = optPart n v) ∨
    (f = "--follow-imports" ∨ f = "--nofollow-imports") ∨
    (st.uac = true ∧ f = "--windows-uac-admin") ∨
    f ∈ extraLines st ∨
    f = st.fileEdit := by
  rw [cmdParts_eq] at hmem
  simp only [List.mem_cons, List.mem_append, mem_ite, List.mem_map,
    List.mem_flatMap, List.mem_singleton, List.not_mem_nil, or_false,
    and_false, false_and, false_or] at hmem
  rcases hmem with h | h | h | (⟨hb, h⟩ | ⟨hb, h⟩) | ⟨hb, h⟩ |
    (⟨hc, h⟩ | ⟨hc1, (⟨hc2, h⟩ | ⟨hc2, hc3, h⟩)⟩) | ⟨hb, h⟩ | ⟨hb, h⟩ |
    ⟨hb, h⟩ | ⟨hb, h⟩ | ⟨hb, h⟩ | ⟨hb, h⟩ | ⟨hc, h⟩ | ⟨hc, h⟩ | ⟨hc, h⟩ |
    ⟨hc, h⟩ | ⟨hc1, hc2, h⟩ |
    (⟨hf1, (⟨hc, h⟩ | ⟨hc, h⟩)⟩ | ⟨hf2, h⟩) | ⟨hc, a, ha, h⟩ |
    ⟨hc, a, ha, h⟩ | ⟨a, ha, he, (⟨ht, h⟩ | ⟨ht1, ht2, h⟩)⟩ | ⟨hc, h⟩ |
    ⟨hc, h⟩ | ⟨hc, h⟩ | ⟨hc, h⟩ | ⟨hb, h⟩ | ⟨hc, h⟩ | h
  · left
    exact h
  · right; left
    exact h
  · right; right; left
    exact h
  · right; right; right; left
    exact ⟨hb, h⟩
  · right; right; right; right; left
    exact ⟨by simpa using hb, h⟩
  · right; right; right; right; right; left
    exact ⟨hb, h⟩
  · right; right; right; right; right; right; left
    exact Or.inl h
  · right; right; right; right; right; right; left
    exact Or.inr (Or.inl h)
  · right; right; right; right; right; right; left
    exact Or.inr (Or.inr h)
  · right; right; right; right; right; right; right; left
    exact ⟨by simpa using hb, h⟩
  · right; right; right; right; right; right; right; right; left
    exact ⟨hb, h⟩
  · right; right; right; right; right; right; right; right; right; left
    exact ⟨hb, h⟩
  · right; right; right; right; right; right; right; right; right; right; left
    exact ⟨hb, h⟩
  · right; right; right; right; right; right; right; right; right; right; right; left
    exact ⟨hb, h⟩
  · right; right; right; right; right; right; right; right; right; right; right; right; left
    exact ⟨hb, h⟩
  · right; right; right; right; right; right; right; right; right; right; right; right; right; left
    exact ⟨"output-dir", st.outputDir, by decide, h⟩
  · right; right; right; right; right; right; right; right; right; right; right; right; right; left
    exact ⟨"output-filename", st.outputName, by decide, h⟩
  · right; right; right; right; right; right; right; right; right; right; right; right; right; left
    exact ⟨"windows-icon-from-ico", st.outputIcon, by decide, h⟩
  · right; right; right; right; right; right; right; right; right; right; right; right; right; left
    exact ⟨"enable-plugin", pyJoin "," (enabledPlugins st), by decide, h⟩
  · right; right; right; right; right; right; right; right; right; right; right; right; right; left
    exact ⟨"enable-plugin", pyJoin "," (customPluginList st), by decide, h⟩
  · right; right; right; right; right; right; right; right; right; right; right; right; right; left
    exact ⟨"follow-import-to", pyRemoveSpaces st.includeMods, by decide, h⟩
  · right; right; right; right; right; right; right; right; right; right; right; right; right; right; left
    exact Or.inl h
  · right; right; right; right; right; right; right; right; right; right; right; right; right; right; left
    exact Or.inr h
  · right; right; right; right; right; right; right; right; right; right; right; right; right; left
    exact ⟨"nofollow-import-to", pyStrip a, by decide, h.symm⟩
  · right; right; right; right; right; right; right; right; right; right; right; right; right; left
    by_cases hq : pyContainsChar '=' a = true
    · rw [if_pos hq] at h
      exact ⟨"include-data-files", a, by decide, h.symm⟩
    · rw [if_neg hq] at h
      exact ⟨"include-data-dir", a, by decide, h.symm⟩
  · right; right; right; right; right; right; right; right; right; right; right; right; right; left
    exact ⟨"include-data-files", a.source ++ "=" ++ a.target, by decide, h⟩
  · right; right; right; right; right; right; right; right; right; right; right; right; right; left
    exact ⟨"include-data-dir", a.source ++ "=" ++ a.target, by decide, h⟩
  · right; right; right; right; right; right; right; right; right; right; right; right; right; left
    exact ⟨"windows-company-name", st.winCompany, by decide, h⟩
  · right; right; right; right; right; right; right; right; right; right; right; right; right; left
    exact ⟨"windows-product-name", st.winProduct, by decide, h⟩
  · right; right; right; right; right; right; right; right; right; right; right; right; right; left
    exact ⟨"windows-file-version", st.winVersion, by decide, h⟩
  · right; right; right; right; right; right; right; right; right; right; right; right; right; left
    exact ⟨"windows-file-description", st.winDesc, by decide, h⟩
  · right; right; right; right; right; right; right; right; right; right; right; right; right; right; right; left
    exact ⟨hb, h⟩
  · right; right; right; right; right; right; right; right; right; right; right; right; right; right; right; right; left
    exact h
  · right; right; right; right; right; right; right; right; right; right; right; right; right; right; right; right; right
    exact h

/-- C1 (amended): provided the interpreter path, the script path, and the
extra-arguments lines do not themselves spell the flag, the command built by
`buildCommand` contains each boolean option's fixed flag as a part exactly
when that option is enabled.  (Without the proviso the claim fails: the
extra-arguments box can inject a disabled option's flag, see the
counterexample.) -/
theorem buildCommand_flags_iff (st : FormState) (o : OptFlag)
    (h0 : st.fileEdit ≠ "")
    (h1 : st.pythonEdit ≠ optFlagStr o)
    (h2 : st.fileEdit ≠ optFlagStr o)
    (h3 : optFlagStr o ∉ extraLines st) :
    buildCommand st = some (pyJoin " " (cmdParts st)) ∧
    (optFlagStr o ∈ cmdParts st ↔ optFlagOn o st = true) := by
  cases o
  all_goals simp only [optFlagStr] at h1 h2 h3
  all_goals refine ⟨by unfold buildCommand buildCommandE; rw [if_neg h0]; rfl,
    ⟨fun hmem => ?_, fun hOn => ?_⟩⟩
  all_goals simp only [optFlagStr, optFlagOn] at *
  case standalone.refine_2 => simp [cmdParts_eq, hOn]
  case onefile.refine_2 => simp [cmdParts_eq, show st.standalone = false by simpa using hOn]
  case autoDownload.refine_2 => simp [cmdParts_eq, hOn]
  case console.refine_2 => simp [cmdParts_eq, show st.console = false by simpa using hOn]
  case progress.refine_2 => simp [cmdParts_eq, hOn]
  case memory.refine_2 => simp [cmdParts_eq, hOn]
  case removeOutput.refine_2 => simp [cmdParts_eq, hOn]
  case lowMemory.refine_2 => simp [cmdParts_eq, hOn]
  case lto.refine_2 => simp [cmdParts_eq, hOn]
  case uac.refine_2 => simp [cmdParts_eq, hOn]
  all_goals {
    have hc := mem_cmdParts_cases st _ hmem
    rcases hc with h | h | h | ⟨hb, h⟩ | ⟨hb, h⟩ | ⟨hb, h⟩ | (h | h | h) |
      ⟨hb, h⟩ | ⟨hb, h⟩ | ⟨hb, h⟩ | ⟨hb, h⟩ | ⟨hb, h⟩ | ⟨hb, h⟩ |
      ⟨n, v, hn, h⟩ | (h | h) | ⟨hb, h⟩ | h | h
    all_goals first
      | exact hb
      | (exact absurd h (by decide))
      | (exact absurd h.symm h2)
      | (exact absurd h h3)
      | (simp [hb])
      | (rw [pythonPath] at h
         split at h <;> first
           | exact absurd h (by decide)
           | exact absurd h.symm h1)
      | (fin_cases hn <;> exact absurd h (flag_ne_optPart _ _ _ (by decide)))
  }

/-- C1 witness: the show-progress flag on the sample state. -/
theorem buildCommand_flags_iff_witness :
    "--show-progress" ∈ cmdParts sampleState ↔
      optFlagOn OptFlag.progress sampleState = true :=
  (buildCommand_flags_iff sampleState OptFlag.progress (by decide) (by decide)
    (by decide) (by decide)).2

set_option maxRecDepth 4096 in
/-- C1 counterexample: with the show-progress option disabled but its flag
typed into the extra-arguments box, the built command still contains
`--show-progress` — the command does not contain exactly the flags of the
enabled options. -/
theorem flags_iff_counterexample :
    optFlagOn OptFlag.progress injectedState = false ∧
    optFlagStr OptFlag.progress ∈ cmdParts injectedState ∧
    (optFlagStr OptFlag.progress).data
      <:+: (pyJoin " " (cmdParts injectedState)).data := by
  have e : cmdParts injectedState =
      ["python", "-m", "nuitka", "--standalone", "--assume-yes-for-downloads",
       "--remove-output", "--follow-imports", "--show-progress", "main.py"] := by
    rfl
  refine ⟨rfl, ?_, ?_⟩
  · rw [e]
    decide
  · rw [e]
    decide
